import Mathlib

/-!
Verification development for the TRTools repository core:
the harmonized tandem-repeat record model (`TRRecord`) and the
`compareSTR` merge-compare engine.

The `compareSTR.py` module is present in the sources and is embedded
directly (`GetFormatFields`, `UpdateComparisonResults`, the merge walk of
`main`).  The `tr_harmonizer` module is not part of the sources (only its
test suite is), so the `TRRecord` data model and its accessors are
modelled from the specification, as marked on each definition.
-/

set_option autoImplicit false

namespace TRTools

/-- Decidable equality of fallible results, so that concrete scenario
computations can be settled by `decide`. -/
instance {ε α : Type} [DecidableEq ε] [DecidableEq α] : DecidableEq (Except ε α) :=
  fun x y =>
    match x, y with
    | Except.ok a, Except.ok b =>
      if h : a = b then Decidable.isTrue (h ▸ rfl)
      else Decidable.isFalse (fun hh => h (Except.ok.inj hh))
    | Except.error a, Except.error b =>
      if h : a = b then Decidable.isTrue (h ▸ rfl)
      else Decidable.isFalse (fun hh => h (Except.error.inj hh))
    | Except.ok _, Except.error _ => Decidable.isFalse (fun hh => Except.noConfusion hh)
    | Except.error _, Except.ok _ => Decidable.isFalse (fun hh => Except.noConfusion hh)

/-! ## Part 1: the TRRecord data model

Modelled from the spec: `trtools/utils/tr_harmonizer.py` is not under the
sources, only `test/test_strtools/test_trharmonizer.py` is.  The record
model follows section 3 and section 4.1 of the specification. -/

/-- One per-sample genotype entry: an ordered sequence of allele indices
(0 = ref, i bigger than 0 = alt number i), a calledness flag and a sample
identifier.  This mirrors the `DummyVCFSample` objects the test suite
feeds to `TRRecord` (field `gt_alleles` / `called` / `sample`). -/
structure DummySample where
  gtAlleles : List Nat
  called : Bool
  name : String
deriving DecidableEq

/-- Modelled from the spec: the canonical record of one locus
(spec section 3).  `altAlleles` entries may be the unknown sentinel
(`none`), meaning the alt sequence is not resolvable and only a length is
known; `unknownLength` is the dialect-supplied length (in repeat units)
standing in for unknown-sequence alts. -/
structure TRRecord where
  samples : List DummySample
  refAllele : String
  altAlleles : List (Option String)
  motif : String
  unknownLength : ℚ
deriving DecidableEq

/-- Total number of declared alleles: the ref plus the declared alts. -/
def numAlleles (r : TRRecord) : Nat := 1 + r.altAlleles.length

/-- Map a fallible function over a list, stopping at the first error —
the way a Python loop raises at the first offending element. -/
def mapME {α β : Type} (f : α → Except String β) : List α → Except String (List β)
  | [] => Except.ok []
  | a :: l =>
    match f a with
    | Except.error e => Except.error e
    | Except.ok b =>
      match mapME f l with
      | Except.error e => Except.error e
      | Except.ok bs => Except.ok (b :: bs)

/-- Map a partial function over a list, failing if any element does. -/
def mapMO {α β : Type} (f : α → Option β) : List α → Option (List β)
  | [] => some []
  | a :: l =>
    match f a with
    | none => none
    | some b =>
      match mapMO f l with
      | none => none
      | some bs => some (b :: bs)

/-- Modelled from the spec: construction of a `TRRecord` from a raw record
plus a resolved ref/alt/motif triple.  "Construction fails with
`ValueError` if ... a genotype references an allele that does not exist in
the declared allele list" (spec section 4.1).  Uncalled samples contribute
no observed genotype. -/
def mkTRRecord (samples : List DummySample) (ref : String)
    (alts : List (Option String)) (motif : String) (ulen : ℚ) :
    Except String TRRecord :=
  if samples.any (fun s => s.called && s.gtAlleles.any (fun i => 1 + alts.length ≤ i)) then
    Except.error "ValueError: genotype references an allele not in the declared allele list"
  else
    Except.ok ⟨samples, ref, alts, motif, ulen⟩

/-- The allele sequence behind index `i`: index 0 is the ref allele,
index `i` bigger than 0 is declared alt number `i`; the result is `none`
for the unknown sentinel. -/
def alleleSeq (r : TRRecord) (i : Nat) : Option String :=
  if i = 0 then some r.refAllele else r.altAlleles.getD (i - 1) none

/-- Modelled from the spec: the length (in repeat units) of the allele
behind index `i`: sequence length divided by the motif length, or the
dialect-supplied length for an unknown-sequence alt (spec section 4.1,
`LengthGenotype`). -/
def alleleLen (r : TRRecord) (i : Nat) : ℚ :=
  match alleleSeq r i with
  | some s => (s.length : ℚ) / (r.motif.length : ℚ)
  | none => r.unknownLength

/-- Modelled from the spec: `GetStringGenotype` returns the ordered
sequence of allele sequences of a sample, and "fails with
`UndefinedAlleleError` if any referenced alt index maps to the unknown
sentinel" (spec section 4.1). -/
def GetStringGenotype (r : TRRecord) (s : DummySample) : Except String (List String) :=
  mapME (fun i =>
    match alleleSeq r i with
    | some a => Except.ok a
    | none => Except.error "UndefinedAlleleError") s.gtAlleles

/-- Modelled from the spec: `GetLengthGenotype` returns the ordered
sequence of allele lengths of a sample; always defined when the sample is
called, even when the string view is not (spec section 4.1). -/
def GetLengthGenotype (r : TRRecord) (s : DummySample) : List ℚ :=
  s.gtAlleles.map (alleleLen r)

/-- A sample qualifies for a count/frequency computation when it is called
and, if a sample list is given, its identifier is in the list; samples of
the list absent from the record are silently excluded (spec section 4.1). -/
def qualifies (slist : Option (List String)) (s : DummySample) : Bool :=
  s.called &&
    (match slist with
     | none => true
     | some l => l.contains s.name)

/-- The record samples that qualify under the optional sample list. -/
def qualifyingSamples (r : TRRecord) (slist : Option (List String)) : List DummySample :=
  r.samples.filter (qualifies slist)

/-- An observed allele key: a length (in repeat units) when `uselength`
is used, an allele sequence otherwise. -/
abbrev Allele := ℚ ⊕ String

/-- The key of allele index `i` under the chosen view: its length, or its
sequence; the sequence view of an unknown-sentinel alt is undefined
(spec section 3: sequence-based views "must be undefined/excluded, not
fabricated"). -/
def alleleKey (r : TRRecord) (uselength : Bool) (i : Nat) : Except String Allele :=
  if uselength then Except.ok (Sum.inl (alleleLen r i))
  else
    match alleleSeq r i with
    | some a => Except.ok (Sum.inr a)
    | none => Except.error "UndefinedAlleleError"

/-- The genotype key of one sample: its allele indices mapped through
`alleleKey`, order preserved. -/
def genotypeKey (r : TRRecord) (uselength : Bool) (s : DummySample) :
    Except String (List Allele) :=
  mapME (alleleKey r uselength) s.gtAlleles

/-- Modelled from the spec: the multiset of observed genotypes underlying
`GetGenotypeCounts` — one genotype key per qualifying called sample
(spec section 4.1). -/
def genotypeObs (r : TRRecord) (slist : Option (List String)) (uselength : Bool) :
    Except String (List (List Allele)) :=
  mapME (genotypeKey r uselength) (qualifyingSamples r slist)

/-- Modelled from the spec: the multiset of observed alleles underlying
`GetAlleleCounts` and `GetAlleleFreqs` — every called allele of every
qualifying sample (spec section 4.1). -/
def alleleObs (r : TRRecord) (slist : Option (List String)) (uselength : Bool) :
    Except String (List Allele) :=
  mapME (alleleKey r uselength) ((qualifyingSamples r slist).flatMap (fun s => s.gtAlleles))

/-- The counts mapping of a multiset of observations: each key maps to its
occurrence count. -/
def countMap {α : Type} [DecidableEq α] (l : List α) : α → Nat := fun a => l.count a

/-- The frequency mapping of a multiset of observations: occurrence count
divided by the total number of observations. -/
def freqMap {α : Type} [DecidableEq α] (l : List α) : α → ℚ :=
  fun a => (l.count a : ℚ) / (l.length : ℚ)

/-- The support of the counts/frequency mapping: the set of observed keys.
The mapping is empty exactly when the support is empty. -/
def mapSupport {α : Type} [DecidableEq α] (l : List α) : Finset α := l.toFinset

/-- Modelled from the spec: `GetMaxAllele` — the maximum allele length
observed across all called samples, not filtered by a sample list
(spec section 4.1). -/
def GetMaxAllele (r : TRRecord) : ℚ :=
  ((r.samples.filter (fun s => s.called)).flatMap (GetLengthGenotype r)).foldr max 0

/-! Concrete records of the test suite (`test_trharmonizer.py`). -/

/-- `dummy_record1` of the test suite: six called samples, genotypes
0/1, 1/1, 1/1, 1/2, 2/2 and haploid 0. -/
def dummyRecord1 : List DummySample :=
  [⟨[0, 1], true, "S1"⟩, ⟨[1, 1], true, "S2"⟩, ⟨[1, 1], true, "S3"⟩,
   ⟨[1, 2], true, "S4"⟩, ⟨[2, 2], true, "S5"⟩, ⟨[0], true, "S6"⟩]

/-- `dummy_record3` of the test suite: three diploid and one triploid
sample, all homozygous reference. -/
def dummyRecord3 : List DummySample :=
  [⟨[0, 0], true, "S7"⟩, ⟨[0, 0], true, "S7"⟩, ⟨[0, 0], true, "S7"⟩,
   ⟨[0, 0, 0], true, "S8"⟩]

/-- `dummy_record4` of the test suite: one uncalled sample. -/
def dummyRecord4 : List DummySample := [⟨[0], false, "S9"⟩]

/-- Scenario A record: ref CAGCAGCAG with two declared alts. -/
def rec1 : TRRecord :=
  ⟨dummyRecord1, "CAGCAGCAG",
   [some "CAGCAGCAGCAG", some "CAGCAGCAGCAGCAGCAG"], "CAG", 0⟩

/-- Scenario B record: all-reference samples with the single unknown
sentinel as the alt list. -/
def rec3 : TRRecord := ⟨dummyRecord3, "CAGCAGCAG", [none], "CAG", 0⟩

/-! ## Part 2: the comparison engine of `compareSTR.py`

`UpdateComparisonResults` (compareSTR.py lines 345-413) is embedded
directly.  The harmonized records it receives expose array-valued
accessors (`GetCalledSamples`, `GetSamplePloidies`, `GetStringGenotypes`,
`GetLengthGenotypes`, `format`) whose implementation lives in the missing
`tr_harmonizer` module; they are therefore abstracted as plain data
fields of a `RecordView`.  The numpy array operations the function
performs on them (fancy indexing, boolean masks, array truthiness,
broadcasting of in-place addition) are embedded explicitly. -/

/-- The view of one harmonized record that `UpdateComparisonResults`
consumes: coordinate, motif, ref allele, and the per-sample arrays
returned by the record accessors.  `stringGts` and `lengthGts` rows carry
the trailing extra column that the source strips with `[:, :-1]`. -/
structure RecordView where
  chrom : String
  pos : Int
  refAllele : String
  motif : String
  calledArr : List Bool
  ploidies : List Nat
  stringGts : List (List String)
  lengthGts : List (List ℚ)
  fmtVals : String → List ℚ

/-- The locus-keyed accumulator (`locus_results` of compareSTR.py):
one list per column, appended to per aligned pair. -/
structure LocusResults where
  chrom : List String
  start : List Int
  period : List Nat
  numcalls : List Nat
  gtsum1 : List (List ℚ)
  gtsum2 : List (List ℚ)
  concSeq : List (List Bool)
  concLen : List (List Bool)
  fmtCols : List (String × List (List ℚ))
deriving DecidableEq

/-- The sample-keyed accumulator (`sample_results` of compareSTR.py):
running totals per shared sample. -/
structure SampleResults where
  numcalls : List Int
  concSeqCount : List Int
  concLenCount : List Int
deriving DecidableEq

/-- Both accumulators together. -/
structure CompState where
  locus : LocusResults
  samp : SampleResults
deriving DecidableEq

/-- numpy fancy indexing `arr[idxs]`; the indices `main` builds are in
range, so out-of-range lookups take a default instead of modelling
`IndexError`. -/
def npIndex {α : Type} (l : List α) (d : α) (idxs : List Nat) : List α :=
  idxs.map (fun i => l.getD i d)

/-- numpy boolean-mask indexing `arr[mask]`. -/
def maskSelect {α : Type} (l : List α) (mask : List Bool) : List α :=
  ((l.zip mask).filter (fun p => p.2)).map (fun p => p.1)

/-- numpy elementwise equality of two 2-d arrays followed by
`np.all(..., axis=1)`: one boolean per row pair.  Arrays of incompatible
shape do not compare elementwise; that raises once `np.all` is applied,
modelled as an error. -/
def npRowsAllEq {α : Type} [DecidableEq α] (a b : List (List α)) :
    Except String (List Bool) :=
  if (a.zip b).all (fun p => p.1.length = p.2.length) then
    Except.ok ((a.zip b).map (fun p => decide (p.1 = p.2)))
  else Except.error "ValueError: elementwise comparison of mismatched shapes"

/-- numpy in-place `acc += b` of a boolean array into an integer array:
elementwise when the lengths agree, broadcast of a single element over the
whole array when `b` has length one, and a broadcasting error otherwise. -/
def npAddCounts (acc : List Int) (b : List Bool) : Except String (List Int) :=
  if b.length = acc.length then
    Except.ok ((acc.zip b).map (fun p => p.1 + (if p.2 then 1 else 0)))
  else if b.length = 1 then
    Except.ok (acc.map (fun x => x + (if b.headD false then 1 else 0)))
  else Except.error "ValueError: operands could not be broadcast together"

/-- `both_called` (compareSTR.py lines 373-376): the shared samples called
in both records, via fancy indexing of each record's called mask. -/
def bothCalledMask (r1 r2 : RecordView) (idxs : List Nat × List Nat) : List Bool :=
  List.zipWith (fun a b => a && b)
    (npIndex r1.calledArr false idxs.1) (npIndex r2.calledArr false idxs.2)

/-- `called_sample_idxs` (compareSTR.py lines 384-386): the per-record
indices of the jointly-called shared samples. -/
def calledSampleIdxs (r1 r2 : RecordView) (idxs : List Nat × List Nat) :
    List Nat × List Nat :=
  (maskSelect idxs.1 (bothCalledMask r1 r2 idxs),
   maskSelect idxs.2 (bothCalledMask r1 r2 idxs))

/-- `ploidies1` / `ploidies2` (compareSTR.py lines 388-389): the ploidies
of the jointly-called samples in each record. -/
def jointPloidies (r1 r2 : RecordView) (idxs : List Nat × List Nat) :
    List Nat × List Nat :=
  ((npIndex r1.ploidies 0 (calledSampleIdxs r1 r2 idxs).1),
   (npIndex r2.ploidies 0 (calledSampleIdxs r1 r2 idxs).2))

/-- The four appends to the locus accumulator performed before the ploidy
check (compareSTR.py lines 378-381): chrom, start, period and numcalls. -/
def appendLocusHeader (r1 : RecordView) (bc : List Bool) (st : CompState) : CompState :=
  { st with locus := { st.locus with
      chrom := st.locus.chrom ++ [r1.chrom],
      start := st.locus.start ++ [r1.pos],
      period := st.locus.period ++ [r1.motif.length],
      numcalls := st.locus.numcalls ++ [bc.count true] } }

/-- The format-field loop of compareSTR.py lines 406-410: for each field
append the jointly-called samples' first format values of each record to
the columns named field+1 and field+2. -/
def appendFmtColumns (r1 r2 : RecordView) (fmtFields : List String)
    (ci : List Nat × List Nat) (cols : List (String × List (List ℚ))) :
    List (String × List (List ℚ)) :=
  fmtFields.foldl (fun cs ff =>
    (cs.map (fun c => if c.1 = ff ++ "1" then (c.1, c.2 ++ [npIndex (r1.fmtVals ff) 0 ci.1]) else c)).map
      (fun c => if c.1 = ff ++ "2" then (c.1, c.2 ++ [npIndex (r2.fmtVals ff) 0 ci.2]) else c)) cols

/-- The body of `UpdateComparisonResults` after the ploidy check passes
(compareSTR.py lines 394-413): sequence and length concordance, gtsum
columns, format columns, and the three broadcasting `+=` updates of the
sample accumulator.  Returns the state as mutated so far together with the
escaped exception, if any. -/
def updateAfterPloidyCheck (r1 r2 : RecordView) (fmtFields : List String)
    (idxs : List Nat × List Nat) (st1 : CompState) : CompState × Option String :=
  let reflen : ℚ := (r1.refAllele.length : ℚ) / (r1.motif.length : ℚ)
  let bc := bothCalledMask r1 r2 idxs
  let ci := calledSampleIdxs r1 r2 idxs
  let g1 := (npIndex r1.stringGts [] ci.1).map List.dropLast
  let g2 := (npIndex r2.stringGts [] ci.2).map List.dropLast
  match npRowsAllEq g1 g2 with
  | Except.error e => (st1, some e)
  | Except.ok concSeq =>
    let st2 := { st1 with locus := { st1.locus with concSeq := st1.locus.concSeq ++ [concSeq] } }
    let l1 := (npIndex r1.lengthGts [] ci.1).map List.dropLast
    let l2 := (npIndex r2.lengthGts [] ci.2).map List.dropLast
    let st3 := { st2 with locus := { st2.locus with
        gtsum1 := st2.locus.gtsum1 ++ [l1.map (fun row => row.sum - reflen * 2)],
        gtsum2 := st2.locus.gtsum2 ++ [l2.map (fun row => row.sum - reflen * 2)] } }
    match npRowsAllEq l1 l2 with
    | Except.error e => (st3, some e)
    | Except.ok concLen =>
      let st4 := { st3 with locus := { st3.locus with
          concLen := st3.locus.concLen ++ [concLen],
          fmtCols := appendFmtColumns r1 r2 fmtFields ci st3.locus.fmtCols } }
      match npAddCounts st4.samp.numcalls bc with
      | Except.error e => (st4, some e)
      | Except.ok nc =>
        let st5 := { st4 with samp := { st4.samp with numcalls := nc } }
        match npAddCounts st5.samp.concSeqCount concSeq with
        | Except.error e => (st5, some e)
        | Except.ok cs =>
          let st6 := { st5 with samp := { st5.samp with concSeqCount := cs } }
          match npAddCounts st6.samp.concLenCount concLen with
          | Except.error e => (st6, some e)
          | Except.ok cl =>
            ({ st6 with samp := { st6.samp with concLenCount := cl } }, none)

/-- `UpdateComparisonResults` (compareSTR.py lines 345-413).  The Python
guard `if ploidies1 != ploidies2` evaluates the truth value of a numpy
boolean array: with two or more jointly-called samples this itself raises
(ambiguous truth value), with exactly one it is that element, and with
none it is false.  The accumulators are mutated in place in the source, so
the model returns the state as mutated up to the point of the escaped
exception, paired with the exception, if any. -/
def UpdateComparisonResults (r1 r2 : RecordView) (fmtFields : List String)
    (idxs : List Nat × List Nat) (st : CompState) : CompState × Option String :=
  let st1 := appendLocusHeader r1 (bothCalledMask r1 r2 idxs) st
  if 2 ≤ (jointPloidies r1 r2 idxs).1.length then
    (st1, some "ValueError: The truth value of an array with more than one element is ambiguous")
  else if (jointPloidies r1 r2 idxs).1 ≠ (jointPloidies r1 r2 idxs).2 then
    (st1, some "ValueError: Found sample(s) of different ploidy")
  else
    updateAfterPloidyCheck r1 r2 fmtFields idxs st1

/-! ## Part 3: the merge walk of `main` (compareSTR.py lines 492-513)

The `mergeutils` helpers (`GetMinRecords`, `CheckMin`, `GetNextRecords`,
`DoneReading`) live outside the sources, so they are abstract parameters
of the walk; the loop structure, the coordinate guard in front of the
comparison, the `num_records` counter and the `--numrecords` cutoff are
embedded from the source. -/

/-- A raw record as seen by the walk: just its coordinate. -/
structure RawRec where
  chrom : String
  pos : Int
deriving DecidableEq

/-- The abstract `mergeutils` collaborators of the walk. -/
structure WalkFns where
  getNextRecords : (Option RawRec × Option RawRec) → List Bool → (Option RawRec × Option RawRec)
  getMinRecords : (Option RawRec × Option RawRec) → List Bool
  checkMin : List Bool → Bool
  doneReading : (Option RawRec × Option RawRec) → Bool

/-- Outcome of the walk: the aligned pairs handed to the comparison, the
final `num_records` counter, the number of loop iterations executed, and
whether `CheckMin` aborted the walk (the `return 1` of the source). -/
structure WalkResult where
  pairs : List (RawRec × RawRec)
  numRecords : Nat
  iters : Nat
  aborted : Bool
deriving DecidableEq

/-- The comparison step of one loop iteration (compareSTR.py lines
503-509).  Python's `if all([is_min])` is the truthiness of the non-empty
one-element list `[is_min]`, i.e. the list `is_min` is non-empty.  The
comparison is invoked — and the pair recorded — only under the explicit
chrom/pos guard. -/
def stepPairs (cur : Option RawRec × Option RawRec) (isMin : List Bool)
    (acc : List (RawRec × RawRec)) : List (RawRec × RawRec) :=
  if isMin.isEmpty then acc
  else
    match cur.1, cur.2 with
    | some a, some b =>
      if a.chrom = b.chrom ∧ a.pos = b.pos then acc ++ [(a, b)] else acc
    | _, _ => acc

/-- One-level embedding of the `while not done` loop of `main`
(compareSTR.py lines 496-513), with explicit fuel.  The walk records the
pairs handed to the comparison.  `num_records` is incremented at the end
of every iteration. -/
def mergeWalkAux (fns : WalkFns) (numrecords : Option Nat) :
    Nat → (Option RawRec × Option RawRec) → List Bool → Nat →
    List (RawRec × RawRec) → WalkResult
  | 0, _, _, nr, acc => ⟨acc, nr, 0, false⟩
  | fuel + 1, cur, isMin, nr, acc =>
    if fns.doneReading cur then ⟨acc, nr, 0, false⟩
    else if cur.1.isNone || cur.2.isNone then ⟨acc, nr, 0, false⟩
    else if numrecords.elim false (fun n => n ≤ nr) then ⟨acc, nr, 0, false⟩
    else if fns.checkMin isMin then ⟨acc, nr, 0, true⟩
    else
      let cur2 := fns.getNextRecords cur isMin
      let res := mergeWalkAux fns numrecords fuel cur2 (fns.getMinRecords cur2) (nr + 1)
        (stepPairs cur isMin acc)
      ⟨res.pairs, res.numRecords, res.iters + 1, res.aborted⟩

/-- The walk as started by `main`: initial `is_min` computed from the
initial records, counter starting at zero, no pair yet. -/
def mergeWalk (fns : WalkFns) (numrecords : Option Nat) (fuel : Nat)
    (cur : Option RawRec × Option RawRec) : WalkResult :=
  mergeWalkAux fns numrecords fuel cur (fns.getMinRecords cur) 0 []

/-! ## Part 4: `GetFormatFields` (compareSTR.py lines 34-85) -/

/-- Split a character list on a separator, Python `str.split` style:
the empty string yields one empty field. -/
def splitOnChar (sep : Char) : List Char → List (List Char)
  | [] => [[]]
  | c :: rest =>
    match splitOnChar sep rest with
    | [] => [[c]]
    | g :: gs => if c = sep then [] :: g :: gs else (c :: g) :: gs

/-- Python `str.split(sep)` on a one-character separator. -/
def pySplit (sep : Char) (s : String) : List String :=
  (splitOnChar sep s.toList).map (fun cs => String.mk cs)

/-- Parse a run of decimal digits. -/
def parseNatDigits (cs : List Char) : Option Nat :=
  if cs ≠ [] ∧ cs.all Char.isDigit then
    some (cs.foldl (fun acc c => acc * 10 + (c.toNat - 48)) 0)
  else none

/-- Unsigned part of Python `float()` parsing: digits with an optional
fractional part. -/
def pyFloatUnsigned (cs : List Char) : Option ℚ :=
  match splitOnChar (Char.ofNat 46) cs with
  | [ip] => (parseNatDigits ip).map (fun n => (n : ℚ))
  | [ip, fp] =>
    match parseNatDigits ip, parseNatDigits fp with
    | some n, some f => some ((n : ℚ) + (f : ℚ) / ((10 : ℚ) ^ fp.length))
    | _, _ => none
  | _ => none

/-- The subset of Python `float()` parsing the stratification binsizes
use: an optional sign, digits, and an optional fractional part. -/
def pyFloat (s : String) : Option ℚ :=
  match s.toList with
  | c :: rest =>
    if c = Char.ofNat 45 then (pyFloatUnsigned rest).map (fun q => -q)
    else if c = Char.ofNat 43 then pyFloatUnsigned rest
    else pyFloatUnsigned (c :: rest)
  | [] => none

/-- Whether a requested FORMAT field fails the presence check demanded by
the file option (compareSTR.py lines 75-83): both readers for option 0,
reader 1 for option 1, reader 2 for option 2. -/
def fmtFieldMissing (fileoption : Nat) (formats1 formats2 : List String)
    (fmt : String) : Bool :=
  (fileoption == 0 && !(formats1.contains fmt && formats2.contains fmt)) ||
  (fileoption == 1 && !(formats1.contains fmt)) ||
  (fileoption == 2 && !(formats2.contains fmt))

/-- `GetFormatFields` (compareSTR.py lines 34-85).  `formats1` and
`formats2` are the FORMAT IDs of the two readers' headers.  Returns the
parsed field list and the per-field parsed binsize components, or the
first raised `ValueError`. -/
def GetFormatFields (format_fields format_binsizes : Option String)
    (fileoption : Nat) (formats1 formats2 : List String) :
    Except String (List String × List (List ℚ)) :=
  match format_fields, format_binsizes with
  | none, _ => Except.ok ([], [])
  | _, none => Except.ok ([], [])
  | some fstr, some bstr =>
    let formats := pySplit (Char.ofNat 44) fstr
    let binstrs := pySplit (Char.ofNat 44) bstr
    if formats.length ≠ binstrs.length then
      Except.error "ValueError: --stratify-formats must be same length as --stratify-binsizes"
    else
      match mapMO (fun item => mapMO pyFloat (pySplit (Char.ofNat 58) item)) binstrs with
      | none => Except.error "ValueError: could not convert string to float"
      | some binsizes =>
        match formats.find? (fmtFieldMissing fileoption formats1 formats2) with
        | some fmt => Except.error ("ValueError: FORMAT field " ++ fmt ++ " must be present")
        | none => Except.ok (formats, binsizes)

/-! Concrete comparison inputs used by the scenario theorems. -/

/-- A record view with two samples: the first called and diploid with
length genotype (2, 2), the second uncalled. -/
def rv1 : RecordView :=
  { chrom := "chr1", pos := 100, refAllele := "CAGCAGCAG", motif := "CAG",
    calledArr := [true, false], ploidies := [2, 2],
    stringGts := [["CAGCAG", "CAGCAG", "p"], ["", "", ""]],
    lengthGts := [[2, 2, 0], [0, 0, 0]], fmtVals := fun _ => [] }

/-- A second record view identical to `rv1`: same coordinate, same
genotypes for the jointly-called first sample. -/
def rv2 : RecordView :=
  { chrom := "chr1", pos := 100, refAllele := "CAGCAGCAG", motif := "CAG",
    calledArr := [true, false], ploidies := [2, 2],
    stringGts := [["CAGCAG", "CAGCAG", "p"], ["", "", ""]],
    lengthGts := [[2, 2, 0], [0, 0, 0]], fmtVals := fun _ => [] }

/-- Like `rv2` but the jointly-called first sample is triploid: a ploidy
mismatch against `rv1`. -/
def rv2p : RecordView := { rv2 with ploidies := [3, 2] }

/-- The empty accumulators for two shared samples, as `main` initializes
them (compareSTR.py lines 458-472). -/
def st0 : CompState :=
  ⟨⟨[], [], [], [], [], [], [], [], []⟩, ⟨[0, 0], [0, 0], [0, 0]⟩⟩

/-- Concrete merge collaborators: single-record streams that are
exhausted after one advance, every stream always at the minimum, no
ordering violation. -/
def walkFns : WalkFns :=
  { getNextRecords := fun _ _ => (none, none),
    getMinRecords := fun _ => [true, true],
    checkMin := fun _ => false,
    doneReading := fun c => c.1.isNone && c.2.isNone }

/-- A raw record at chr1:100. -/
def ra : RawRec := ⟨"chr1", 100⟩

/-- A second raw record at the same coordinate chr1:100. -/
def rb : RawRec := ⟨"chr1", 100⟩

/-- A raw record at the different coordinate chr1:200. -/
def rc : RawRec := ⟨"chr1", 200⟩

/-- Like `rv1` but with both samples called (equal diploid ploidies in
both records). -/
def rv3 : RecordView := { rv1 with calledArr := [true, true] }

/-- Like `rv2` but with both samples called. -/
def rv4 : RecordView := { rv2 with calledArr := [true, true] }

/-- The observed length alleles of Scenario A, in sample order:
3,4 / 4,4 / 4,4 / 4,6 / 6,6 / 3. -/
def rec1LenObs : List Allele :=
  [Sum.inl 3, Sum.inl 4, Sum.inl 4, Sum.inl 4, Sum.inl 4, Sum.inl 4, Sum.inl 4,
   Sum.inl 6, Sum.inl 6, Sum.inl 6, Sum.inl 3]

/-- The observed length genotypes of Scenario B, in sample order. -/
def rec3GtObs : List (List Allele) :=
  [[Sum.inl 3, Sum.inl 3], [Sum.inl 3, Sum.inl 3], [Sum.inl 3, Sum.inl 3],
   [Sum.inl 3, Sum.inl 3, Sum.inl 3]]

/-- The observed length alleles of Scenario B: nine reference alleles. -/
def rec3LenObs : List Allele :=
  [Sum.inl 3, Sum.inl 3, Sum.inl 3, Sum.inl 3, Sum.inl 3, Sum.inl 3, Sum.inl 3,
   Sum.inl 3, Sum.inl 3]

/-- A called sample whose genotype references the non-ref allele index 1. -/
def badSample : DummySample := ⟨[1, 1], true, "SX"⟩

/-- The record built from `badSample` with the single unknown-sentinel
alt: index 1 is within the declared allele list, so construction
succeeds. -/
def recB : TRRecord := ⟨[badSample], "CAGCAGCAG", [none], "CAG", 0⟩

/-! ## Theorems

`Rat.mul` and `Rat.inv` are irreducible by default, which blocks `decide`
on the concrete rational scenario values; they are made semireducible for
the proofs below. -/

attribute [local semireducible] Rat.mul Rat.inv


/-- Errors of `mapME` aside, a successful map preserves the length of the
observation list. -/
theorem mapME_length {α β : Type} (f : α → Except String β) :
    ∀ (l : List α) (res : List β), mapME f l = Except.ok res → res.length = l.length := by
  intro l
  induction l with
  | nil =>
    intro res h
    simp only [mapME] at h
    cases h
    rfl
  | cons a l ih =>
    intro res h
    simp only [mapME] at h
    cases hfa : f a with
    | error e => rw [hfa] at h; simp at h
    | ok b =>
      rw [hfa] at h
      cases hml : mapME f l with
      | error e => rw [hml] at h; simp at h
      | ok bs =>
        rw [hml] at h
        simp only [Except.ok.injEq] at h
        rw [← h]
        simp [ih bs hml]

/-- The counts of a multiset of observations sum to its size. -/
theorem list_toFinset_sum_count {α : Type} [DecidableEq α] (l : List α) :
    ∑ a in l.toFinset, l.count a = l.length := by
  simpa using Multiset.toFinset_sum_count_eq (l : Multiset α)

/-- The frequencies of a non-empty multiset of observations sum to one. -/
theorem freq_sum_eq_one {α : Type} [DecidableEq α] (l : List α) (h : l ≠ []) :
    ∑ a in mapSupport l, freqMap l a = 1 := by
  unfold freqMap mapSupport
  rw [← Finset.sum_div]
  have hlen : (l.length : ℚ) ≠ 0 := by
    have h2 := List.length_pos.mpr h
    exact_mod_cast Nat.pos_iff_ne_zero.mp h2
  rw [div_eq_one_iff_eq hlen]
  norm_cast
  exact list_toFinset_sum_count l

/-- A pair recorded by the comparison step was already recorded or shares
both chrom and pos. -/
theorem stepPairs_mem {cur : Option RawRec × Option RawRec} {isMin : List Bool}
    {acc : List (RawRec × RawRec)} {p : RawRec × RawRec}
    (hp : p ∈ stepPairs cur isMin acc) :
    p ∈ acc ∨ (p.1.chrom = p.2.chrom ∧ p.1.pos = p.2.pos) := by
  unfold stepPairs at hp
  split at hp
  · exact Or.inl hp
  · split at hp
    next a b heq =>
      split at hp
      next hg =>
        rcases List.mem_append.mp hp with h1 | h2
        · exact Or.inl h1
        · simp at h2
          rw [h2]
          exact Or.inr hg
      next => exact Or.inl hp
    next => exact Or.inl hp

/-- One comparison step records at most one pair. -/
theorem stepPairs_length (cur : Option RawRec × Option RawRec) (isMin : List Bool)
    (acc : List (RawRec × RawRec)) :
    (stepPairs cur isMin acc).length ≤ acc.length + 1 := by
  unfold stepPairs
  split
  · omega
  · split
    · split
      · simp
      · omega
    · omega

/-- Walk invariant: every recorded pair shares chrom and pos. -/
theorem mergeWalkAux_pairs_inv (fns : WalkFns) (nrec : Option Nat) :
    ∀ (fuel : Nat) (cur : Option RawRec × Option RawRec) (isMin : List Bool)
      (nr : Nat) (acc : List (RawRec × RawRec)),
      (∀ p ∈ acc, p.1.chrom = p.2.chrom ∧ p.1.pos = p.2.pos) →
      ∀ p ∈ (mergeWalkAux fns nrec fuel cur isMin nr acc).pairs,
        p.1.chrom = p.2.chrom ∧ p.1.pos = p.2.pos := by
  intro fuel
  induction fuel with
  | zero =>
    intro cur isMin nr acc hacc p hp
    simp only [mergeWalkAux] at hp
    exact hacc p hp
  | succ fuel ih =>
    intro cur isMin nr acc hacc p hp
    simp only [mergeWalkAux] at hp
    split at hp
    · exact hacc p hp
    · split at hp
      · exact hacc p hp
      · split at hp
        · exact hacc p hp
        · split at hp
          · exact hacc p hp
          · exact ih (fns.getNextRecords cur isMin)
              (fns.getMinRecords (fns.getNextRecords cur isMin)) (nr + 1)
              (stepPairs cur isMin acc)
              (fun q hq => (stepPairs_mem hq).elim (hacc q) id) p hp

/-- The `num_records` counter advances by exactly one per loop iteration,
and each iteration records at most one compared pair. -/
theorem mergeWalkAux_iters (fns : WalkFns) (nrec : Option Nat) :
    ∀ (fuel : Nat) (cur : Option RawRec × Option RawRec) (isMin : List Bool)
      (nr : Nat) (acc : List (RawRec × RawRec)),
      (mergeWalkAux fns nrec fuel cur isMin nr acc).numRecords =
        nr + (mergeWalkAux fns nrec fuel cur isMin nr acc).iters ∧
      (mergeWalkAux fns nrec fuel cur isMin nr acc).pairs.length ≤
        acc.length + (mergeWalkAux fns nrec fuel cur isMin nr acc).iters := by
  intro fuel
  induction fuel with
  | zero => intro cur isMin nr acc; simp [mergeWalkAux]
  | succ fuel ih =>
    intro cur isMin nr acc
    simp only [mergeWalkAux]
    split
    · simp
    · split
      · simp
      · split
        · simp
        · split
          · simp
          · dsimp only
            obtain ⟨h1, h2⟩ := ih (fns.getNextRecords cur isMin)
              (fns.getMinRecords (fns.getNextRecords cur isMin)) (nr + 1)
              (stepPairs cur isMin acc)
            have hsl := stepPairs_length cur isMin acc
            omega

/-- The caller-supplied cutoff bounds the counter: the walk stops once
`num_records` reaches it. -/
theorem mergeWalkAux_cutoff (fns : WalkFns) (N : Nat) :
    ∀ (fuel : Nat) (cur : Option RawRec × Option RawRec) (isMin : List Bool)
      (nr : Nat) (acc : List (RawRec × RawRec)), nr ≤ N →
      (mergeWalkAux fns (some N) fuel cur isMin nr acc).numRecords ≤ N := by
  intro fuel
  induction fuel with
  | zero => intro cur isMin nr acc h; simpa [mergeWalkAux] using h
  | succ fuel ih =>
    intro cur isMin nr acc hnr
    simp only [mergeWalkAux]
    split
    next hdone => simpa using hnr
    next hdone =>
      split
      next hnone => simpa using hnr
      next hnone =>
        split
        next hcut => simpa using hnr
        next hcut =>
          split
          next hchk => simpa using hnr
          next hchk =>
            dsimp only
            apply ih
            simp only [Option.elim, decide_eq_true_eq] at hcut
            omega


set_option maxRecDepth 20000

/-- C1 (amended): for every aligned pair with at least one jointly-called
sample whose ploidy differs between the two records (i.e. the selected
ploidy arrays differ), `UpdateComparisonResults` raises a `ValueError`
for the whole locus — not a per-sample skip.  The sample-keyed accumulator
is unchanged, but the locus-keyed accumulator has already received the
chrom/start/period/numcalls entries of the locus (a partial row) before
the error. -/
theorem claim_C1_amended : ∀ (r1 r2 : RecordView) (ff : List String)
    (idxs : List Nat × List Nat) (st : CompState),
    (jointPloidies r1 r2 idxs).1 ≠ (jointPloidies r1 r2 idxs).2 →
    ∃ e, UpdateComparisonResults r1 r2 ff idxs st =
        (appendLocusHeader r1 (bothCalledMask r1 r2 idxs) st, some e) ∧
      (appendLocusHeader r1 (bothCalledMask r1 r2 idxs) st).samp = st.samp := by
  intro r1 r2 ff idxs st h
  by_cases h2 : 2 ≤ (jointPloidies r1 r2 idxs).1.length
  · exact ⟨"ValueError: The truth value of an array with more than one element is ambiguous",
      by simp [UpdateComparisonResults, h2], rfl⟩
  · exact ⟨"ValueError: Found sample(s) of different ploidy",
      by simp [UpdateComparisonResults, h2, h], rfl⟩

/-- C1 (counterexample): at a concrete aligned pair whose single
jointly-called sample is diploid in one record and triploid in the other,
the comparison raises, yet the locus-keyed accumulator is NOT unchanged:
it has received the chrom and numcalls entries of the failed locus.  This
refutes the claim that both accumulators are unchanged on error. -/
theorem claim_C1_counterexample :
    (UpdateComparisonResults rv1 rv2p [] ([0, 1], [0, 1]) st0).2 =
      some "ValueError: Found sample(s) of different ploidy" ∧
    st0.locus.numcalls = [] ∧
    (UpdateComparisonResults rv1 rv2p [] ([0, 1], [0, 1]) st0).1.locus.numcalls = [1] ∧
    (UpdateComparisonResults rv1 rv2p [] ([0, 1], [0, 1]) st0).1.locus.chrom = ["chr1"] := by
  decide

/-- C1 (witness): the amended theorem applied to the concrete
ploidy-mismatched pair. -/
theorem claim_C1_witness :
    (jointPloidies rv1 rv2p ([0, 1], [0, 1])).1 ≠
      (jointPloidies rv1 rv2p ([0, 1], [0, 1])).2 ∧
    (∃ e, UpdateComparisonResults rv1 rv2p [] ([0, 1], [0, 1]) st0 =
        (appendLocusHeader rv1 (bothCalledMask rv1 rv2p ([0, 1], [0, 1])) st0, some e) ∧
      (appendLocusHeader rv1 (bothCalledMask rv1 rv2p ([0, 1], [0, 1])) st0).samp = st0.samp) :=
  ⟨by decide, claim_C1_amended rv1 rv2p [] ([0, 1], [0, 1]) st0 (by decide)⟩

/-- C2: for the Scenario A record (ref CAGCAGCAG, two declared alts,
genotypes 0/1, 1/1, 1/1, 1/2, 2/2 and haploid 0), construction succeeds,
the length genotypes are [3,4],[4,4],[4,4],[4,6],[6,6],[3], the
length-based allele counts are 3 → 2, 4 → 6, 6 → 3 over support {3,4,6},
the frequencies are 2/11, 6/11, 3/11, and `GetMaxAllele` returns 6. -/
theorem claim_C2 :
    mkTRRecord dummyRecord1 "CAGCAGCAG"
        [some "CAGCAGCAGCAG", some "CAGCAGCAGCAGCAGCAG"] "CAG" 0 = Except.ok rec1 ∧
    dummyRecord1.map (GetLengthGenotype rec1) =
      [[3, 4], [4, 4], [4, 4], [4, 6], [6, 6], [3]] ∧
    alleleObs rec1 none true = Except.ok rec1LenObs ∧
    countMap rec1LenObs (Sum.inl 3) = 2 ∧
    countMap rec1LenObs (Sum.inl 4) = 6 ∧
    countMap rec1LenObs (Sum.inl 6) = 3 ∧
    mapSupport rec1LenObs = {Sum.inl 3, Sum.inl 4, Sum.inl 6} ∧
    freqMap rec1LenObs (Sum.inl 3) = 2 / 11 ∧
    freqMap rec1LenObs (Sum.inl 4) = 6 / 11 ∧
    freqMap rec1LenObs (Sum.inl 6) = 3 / 11 ∧
    GetMaxAllele rec1 = 6 := by
  decide

/-- C3: for every record and either allele view, whenever the frequency
mapping is defined its values sum to exactly one if at least one called
sample qualifies, and the mapping is empty if none does (every called
sample of a harmonized record carries at least one allele). -/
theorem claim_C3 : ∀ (r : TRRecord) (slist : Option (List String)) (b : Bool)
    (l : List Allele),
    (∀ s ∈ r.samples, s.called = true → s.gtAlleles ≠ []) →
    alleleObs r slist b = Except.ok l →
    ((qualifyingSamples r slist ≠ [] → ∑ a in mapSupport l, freqMap l a = 1) ∧
     (qualifyingSamples r slist = [] → mapSupport l = ∅)) := by
  intro r slist b l hp hobs
  have hlen := mapME_length _ _ _ hobs
  constructor
  · intro hq
    apply freq_sum_eq_one
    intro hl
    rw [hl] at hlen
    cases hqs : qualifyingSamples r slist with
    | nil => exact hq hqs
    | cons s t =>
      have hmem : s ∈ qualifyingSamples r slist := by
        rw [hqs]; exact List.mem_cons_self s t
      have hsf := List.mem_filter.mp hmem
      have hq2 := hsf.2
      simp only [qualifies, Bool.and_eq_true] at hq2
      have hga := hp s hsf.1 hq2.1
      rw [hqs] at hlen
      simp [List.flatMap] at hlen
      have hzero : s.gtAlleles.length = 0 := by omega
      exact hga (List.length_eq_zero.mp hzero)
  · intro hq
    unfold alleleObs at hobs
    rw [hq] at hobs
    simp only [List.flatMap_nil, mapME] at hobs
    cases hobs
    rfl

/-- C3 (witness): the Scenario A record with no sample filter: its length
frequencies sum to one. -/
theorem claim_C3_witness :
    ((∀ s ∈ rec1.samples, s.called = true → s.gtAlleles ≠ []) ∧
     alleleObs rec1 none true = Except.ok rec1LenObs) ∧
    ((qualifyingSamples rec1 none ≠ [] →
        ∑ a in mapSupport rec1LenObs, freqMap rec1LenObs a = 1) ∧
     (qualifyingSamples rec1 none = [] → mapSupport rec1LenObs = ∅)) :=
  ⟨⟨by decide, by decide⟩, claim_C3 rec1 none true rec1LenObs (by decide) (by decide)⟩

/-- C4: `TRRecord` construction fails exactly when a called genotype
references an allele index outside the declared allele list (ref plus
alts); declared alt alleles never used by any genotype (here two unused
alts with all-reference genotypes) are not an error. -/
theorem claim_C4 :
    (∀ (samples : List DummySample) (ref : String) (alts : List (Option String))
        (motif : String) (ulen : ℚ),
      (∃ e, mkTRRecord samples ref alts motif ulen = Except.error e) ↔
        ∃ s ∈ samples, s.called = true ∧ ∃ i ∈ s.gtAlleles, 1 + alts.length ≤ i) ∧
    mkTRRecord dummyRecord3 "CAGCAGCAG" [some "AAA", some "CCC"] "CAG" 0 =
      Except.ok ⟨dummyRecord3, "CAGCAGCAG", [some "AAA", some "CCC"], "CAG", 0⟩ := by
  constructor
  · intro samples ref alts motif ulen
    simp only [mkTRRecord]
    split
    next hc =>
      constructor
      · intro _
        simpa [List.any_eq_true, Bool.and_eq_true, decide_eq_true_eq] using hc
      · intro _
        exact ⟨_, rfl⟩
    next hc =>
      constructor
      · rintro ⟨e, he⟩
        exact Except.noConfusion he
      · intro hex
        apply absurd _ hc
        simpa [List.any_eq_true, Bool.and_eq_true, decide_eq_true_eq] using hex
  · decide

/-- C4 (witness): the equivalence applied to the test-suite record whose
genotypes reference allele index 2 against a single declared alt. -/
theorem claim_C4_witness :
    ∃ e, mkTRRecord dummyRecord1 "CAGCAGCAG" [none] "CAG" 0 = Except.error e :=
  (claim_C4.1 dummyRecord1 "CAGCAGCAG" [none] "CAG" 0).mpr
    ⟨⟨[1, 2], true, "S4"⟩, by decide, rfl, 2, by decide, by decide⟩

/-- C5 (amended): for the Scenario B record (all-reference triploid and
diploid samples, alt list the single unknown sentinel), every string
genotype is a tuple of ref-allele copies, every length genotype is the
reference length 3, the length genotype counts are (3,3) → 3 and
(3,3,3) → 1, the allele counts are 3 → 9; constructing from genotypes
that reference an allele index outside the declared list (the test-suite
record using index 2) raises, while a genotype referencing the declared
unknown-sentinel alt (index 1) constructs successfully and instead
`GetStringGenotype` raises `UndefinedAlleleError` on it. -/
theorem claim_C5_amended :
    mkTRRecord dummyRecord3 "CAGCAGCAG" [none] "CAG" 0 = Except.ok rec3 ∧
    dummyRecord3.map (GetStringGenotype rec3) =
      [Except.ok ["CAGCAGCAG", "CAGCAGCAG"], Except.ok ["CAGCAGCAG", "CAGCAGCAG"],
       Except.ok ["CAGCAGCAG", "CAGCAGCAG"],
       Except.ok ["CAGCAGCAG", "CAGCAGCAG", "CAGCAGCAG"]] ∧
    dummyRecord3.map (GetLengthGenotype rec3) = [[3, 3], [3, 3], [3, 3], [3, 3, 3]] ∧
    genotypeObs rec3 none true = Except.ok rec3GtObs ∧
    countMap rec3GtObs [Sum.inl 3, Sum.inl 3] = 3 ∧
    countMap rec3GtObs [Sum.inl 3, Sum.inl 3, Sum.inl 3] = 1 ∧
    mapSupport rec3GtObs = {[Sum.inl 3, Sum.inl 3], [Sum.inl 3, Sum.inl 3, Sum.inl 3]} ∧
    alleleObs rec3 none true = Except.ok rec3LenObs ∧
    countMap rec3LenObs (Sum.inl 3) = 9 ∧
    mapSupport rec3LenObs = {Sum.inl 3} ∧
    mkTRRecord dummyRecord1 "CAGCAGCAG" [none] "CAG" 0 =
      Except.error "ValueError: genotype references an allele not in the declared allele list" ∧
    GetStringGenotype recB badSample = Except.error "UndefinedAlleleError" := by
  decide

/-- C5 (counterexample): a called genotype referencing the non-ref allele
index 1 against the alt list [unknown sentinel] constructs successfully —
construction does not raise on every genotype referencing a non-ref
allele, only on out-of-range indices. -/
theorem claim_C5_counterexample :
    badSample.gtAlleles = [1, 1] ∧
    mkTRRecord [badSample] "CAGCAGCAG" [none] "CAG" 0 = Except.ok recB := by
  decide

/-- C6: for every choice of the (abstract) merge collaborators and inputs,
every pair the walk hands to the comparison shares both chrom and pos; at
a step where the two current records differ in coordinate no comparison
is performed. -/
theorem claim_C6 : ∀ (fns : WalkFns) (nrec : Option Nat) (fuel : Nat)
    (cur : Option RawRec × Option RawRec) (p : RawRec × RawRec),
    p ∈ (mergeWalk fns nrec fuel cur).pairs →
    p.1.chrom = p.2.chrom ∧ p.1.pos = p.2.pos := by
  intro fns nrec fuel cur p hp
  exact mergeWalkAux_pairs_inv fns nrec fuel cur (fns.getMinRecords cur) 0 []
    (by intro q hq; exact absurd hq (List.not_mem_nil q)) p hp

/-- C6 (witness): a concrete walk that compares one aligned pair. -/
theorem claim_C6_witness :
    (ra, rb) ∈ (mergeWalk walkFns (some 5) 10 (some ra, some rb)).pairs ∧
    (ra.chrom = rb.chrom ∧ ra.pos = rb.pos) :=
  ⟨by decide, claim_C6 walkFns (some 5) 10 (some ra, some rb) (ra, rb) (by decide)⟩

/-- C7 (code bug evaluation): at an aligned pair with two shared samples
of which only the first is jointly called, with identical diploid
genotypes, the comparison completes and correctly adds one call to the
first sample only — but adds the first sample's sequence and length
matches to BOTH samples' running match counts (numpy broadcast of a
length-1 array over the whole accumulator).  Moreover, with both shared
samples jointly called and ploidies equal, the ploidy guard itself raises
the numpy ambiguous-truth-value `ValueError`, so no pair with two or more
jointly-called samples can update the table at all. -/
theorem claim_C7_eval :
    bothCalledMask rv1 rv2 ([0, 1], [0, 1]) = [true, false] ∧
    (UpdateComparisonResults rv1 rv2 [] ([0, 1], [0, 1]) st0).2 = none ∧
    (UpdateComparisonResults rv1 rv2 [] ([0, 1], [0, 1]) st0).1.samp.numcalls = [1, 0] ∧
    (UpdateComparisonResults rv1 rv2 [] ([0, 1], [0, 1]) st0).1.samp.concSeqCount = [1, 1] ∧
    (UpdateComparisonResults rv1 rv2 [] ([0, 1], [0, 1]) st0).1.samp.concLenCount = [1, 1] ∧
    (UpdateComparisonResults rv3 rv4 [] ([0, 1], [0, 1]) st0).2 =
      some "ValueError: The truth value of an array with more than one element is ambiguous" ∧
    rv3.ploidies = rv4.ploidies := by
  decide

/-- C8 (amended): with a caller-supplied cutoff N the walk executes at
most N iterations — the counter advances by exactly one per loop
iteration of the merge walk (whether or not an aligned pair was compared
at that step), each iteration compares at most one aligned pair, and the
counter never exceeds N. -/
theorem claim_C8_amended : ∀ (fns : WalkFns) (N fuel : Nat)
    (cur : Option RawRec × Option RawRec),
    (mergeWalk fns (some N) fuel cur).numRecords =
      (mergeWalk fns (some N) fuel cur).iters ∧
    (mergeWalk fns (some N) fuel cur).pairs.length ≤
      (mergeWalk fns (some N) fuel cur).iters ∧
    (mergeWalk fns (some N) fuel cur).numRecords ≤ N := by
  intro fns N fuel cur
  have h := mergeWalkAux_iters fns (some N) fuel cur (fns.getMinRecords cur) 0 []
  have hc := mergeWalkAux_cutoff fns N fuel cur (fns.getMinRecords cur) 0 [] (Nat.zero_le N)
  unfold mergeWalk
  obtain ⟨h1, h2⟩ := h
  refine ⟨by omega, by simpa using h2, hc⟩

/-- C8 (counterexample): one walk iteration over two current records at
different coordinates compares no aligned pair yet advances the record
counter to one — the counter advances per iteration, not per aligned pair
processed. -/
theorem claim_C8_counterexample :
    (mergeWalk walkFns (some 5) 10 (some ra, some rc)).pairs = [] ∧
    (mergeWalk walkFns (some 5) 10 (some ra, some rc)).numRecords = 1 := by
  decide

/-- C8 (witness): the amended theorem at a concrete walk. -/
theorem claim_C8_witness :
    (mergeWalk walkFns (some 5) 10 (some ra, some rb)).numRecords =
      (mergeWalk walkFns (some 5) 10 (some ra, some rb)).iters ∧
    (mergeWalk walkFns (some 5) 10 (some ra, some rb)).pairs.length ≤
      (mergeWalk walkFns (some 5) 10 (some ra, some rb)).iters ∧
    (mergeWalk walkFns (some 5) 10 (some ra, some rb)).numRecords ≤ 5 :=
  claim_C8_amended walkFns 5 10 (some ra, some rb)

/-- C9: for every record, sample list S and allele view, the genotype
counts (whenever defined) sum to exactly the number of called samples of
the record that are in S — names in S absent from the record are silently
excluded by the filter — and when no sample qualifies all observation
mappings are empty and no error is raised. -/
theorem claim_C9 : ∀ (r : TRRecord) (S : List String) (b : Bool)
    (gl : List (List Allele)),
    genotypeObs r (some S) b = Except.ok gl →
    ((∑ g in mapSupport gl, countMap gl g) = (qualifyingSamples r (some S)).length ∧
     (qualifyingSamples r (some S) = [] →
       genotypeObs r (some S) b = Except.ok [] ∧
       alleleObs r (some S) b = Except.ok [])) := by
  intro r S b gl hobs
  constructor
  · have hlen := mapME_length _ _ _ hobs
    unfold mapSupport countMap
    rw [list_toFinset_sum_count]
    exact hlen
  · intro hq
    constructor
    · unfold genotypeObs
      rw [hq]
      rfl
    · unfold alleleObs
      rw [hq]
      rfl

/-- C9 (witness): Scenario E — a sample list naming only a sample absent
from the record gives empty mappings and no error. -/
theorem claim_C9_witness :
    genotypeObs rec3 (some ["NonExistentSample"]) true = Except.ok [] ∧
    ((∑ g in mapSupport ([] : List (List Allele)), countMap ([] : List (List Allele)) g) =
        (qualifyingSamples rec3 (some ["NonExistentSample"])).length ∧
     (qualifyingSamples rec3 (some ["NonExistentSample"]) = [] →
       genotypeObs rec3 (some ["NonExistentSample"]) true = Except.ok [] ∧
       alleleObs rec3 (some ["NonExistentSample"]) true = Except.ok [])) :=
  ⟨by decide, claim_C9 rec3 ["NonExistentSample"] true [] (by decide)⟩

/-- C10: `GetFormatFields` returns a pair of empty lists whenever either
argument is absent; with both given it raises `ValueError` when the
comma-separated field and binsize lists differ in length, raises
`ValueError` when some requested FORMAT field fails the presence check of
the file option (both readers for 0, reader 1 for 1, reader 2 for 2), and
otherwise (all binsize components parsing) returns the parsed field list
and per-field binsize components. -/
theorem claim_C10 :
    (∀ (b : Option String) (fo : Nat) (f1 f2 : List String),
      GetFormatFields none b fo f1 f2 = Except.ok ([], [])) ∧
    (∀ (a : String) (fo : Nat) (f1 f2 : List String),
      GetFormatFields (some a) none fo f1 f2 = Except.ok ([], [])) ∧
    (∀ (fstr bstr : String) (fo : Nat) (f1 f2 : List String),
      (pySplit (Char.ofNat 44) fstr).length ≠ (pySplit (Char.ofNat 44) bstr).length →
      GetFormatFields (some fstr) (some bstr) fo f1 f2 =
        Except.error "ValueError: --stratify-formats must be same length as --stratify-binsizes") ∧
    (∀ (fstr bstr : String) (fo : Nat) (f1 f2 : List String) (bins : List (List ℚ))
        (fmt : String),
      (pySplit (Char.ofNat 44) fstr).length = (pySplit (Char.ofNat 44) bstr).length →
      mapMO (fun item => mapMO pyFloat (pySplit (Char.ofNat 58) item))
          (pySplit (Char.ofNat 44) bstr) = some bins →
      (pySplit (Char.ofNat 44) fstr).find? (fmtFieldMissing fo f1 f2) = some fmt →
      GetFormatFields (some fstr) (some bstr) fo f1 f2 =
        Except.error ("ValueError: FORMAT field " ++ fmt ++ " must be present")) ∧
    (∀ (fstr bstr : String) (fo : Nat) (f1 f2 : List String) (bins : List (List ℚ)),
      (pySplit (Char.ofNat 44) fstr).length = (pySplit (Char.ofNat 44) bstr).length →
      mapMO (fun item => mapMO pyFloat (pySplit (Char.ofNat 58) item))
          (pySplit (Char.ofNat 44) bstr) = some bins →
      (∀ fmt ∈ pySplit (Char.ofNat 44) fstr, fmtFieldMissing fo f1 f2 fmt = false) →
      GetFormatFields (some fstr) (some bstr) fo f1 f2 =
        Except.ok (pySplit (Char.ofNat 44) fstr, bins)) := by
  refine ⟨fun b fo f1 f2 => by cases b <;> rfl, fun a fo f1 f2 => rfl, ?_, ?_, ?_⟩
  · intro fstr bstr fo f1 f2 h
    simp [GetFormatFields, h]
  · intro fstr bstr fo f1 f2 bins fmt h h2 h3
    simp [GetFormatFields, h, h2, h3]
  · intro fstr bstr fo f1 f2 bins h h2 h3
    have hfind : (pySplit (Char.ofNat 44) fstr).find? (fmtFieldMissing fo f1 f2) = none := by
      rw [List.find?_eq_none]
      intro x hx
      simp [h3 x hx]
    simp [GetFormatFields, h, h2, hfind]

/-- C10 (witness): one field DP with binsize 0:10:1, present in both
readers under file option 0: the parsed field and binsize triple are
returned. -/
theorem claim_C10_witness :
    mapMO (fun item => mapMO pyFloat (pySplit (Char.ofNat 58) item))
        (pySplit (Char.ofNat 44) "0:10:1") = some [[0, 10, 1]] ∧
    GetFormatFields (some "DP") (some "0:10:1") 0 ["DP", "GB"] ["DP"] =
      Except.ok (["DP"], [[0, 10, 1]]) :=
  ⟨by decide,
   claim_C10.2.2.2.2 "DP" "0:10:1" 0 ["DP", "GB"] ["DP"] [[0, 10, 1]]
     (by decide) (by decide) (by decide)⟩

end TRTools
